import Mathlib

/-!
Verification of the generator driver (src/Generator.cpp) against its
natural-language specification.

The development shallowly embeds the pure and stateful logic of the file:
name validation (`is_valid_name`), artifact planning (`compute_outputs`,
`get_extension`), parameter discovery (`build_params`, `rebuild_params`,
`build_module`), configuration-value binding
(`set_generator_param_values`), and the CLI's generator-resolution and
compile-dispatch logic (`generate_filter_main`).
-/

set_option maxHeartbeats 1000000

/-! ## Name validation (Generator.cpp lines 13-30) -/

/-- Embeds `is_alpha` (line 13): `(c >= 'A' && c <= 'Z') || (c >= 'a' && c <= 'z')`. -/
def is_alpha (c : Char) : Bool :=
  ('A' ≤ c && c ≤ 'Z') || ('a' ≤ c && c ≤ 'z')

/-- Embeds `is_alnum` (line 16): `is_alpha(c) || (c == '_') || (c >= '0' && c <= '9')`. -/
def is_alnum (c : Char) : Bool :=
  is_alpha c || c == '_' || ('0' ≤ c && c ≤ '9')

/-- The loop of `is_valid_name` (lines 25-28): scans characters after the
first, carrying the previous character; rejects a non-alnum character and a
`'_'` directly after a `'_'`. -/
def validTail : Char → List Char → Bool
  | _, [] => true
  | prev, c :: rest =>
    if !(is_alnum c) then false
    else if c == '_' && prev == '_' then false
    else validTail c rest

/-- Embeds `is_valid_name` (lines 22-30): empty rejected, first character
must satisfy `is_alpha`, the rest is checked by the loop. -/
def is_valid_name (n : String) : Bool :=
  match n.toList with
  | [] => false
  | c :: rest => if !(is_alpha c) then false else validTail c rest

/-- Spec-side: "first character is an ASCII letter". -/
def spec_letter (c : Char) : Bool :=
  ('A' ≤ c && c ≤ 'Z') || ('a' ≤ c && c ≤ 'z')

/-- Spec-side: "ASCII letter, digit, or underscore". -/
def spec_name_char (c : Char) : Bool :=
  spec_letter c || ('0' ≤ c && c ≤ '9') || c == '_'

/-- Spec-side: the character list contains two consecutive underscores
(the string contains the substring `"__"`). -/
def has_double_underscore : List Char → Bool
  | [] => false
  | [_] => false
  | c :: d :: rest => (c == '_' && d == '_') || has_double_underscore (d :: rest)

/-- Spec-side restatement of the naming rules of the spec (section 4.1):
non-empty; first character an ASCII letter; every subsequent character a
letter, digit, or underscore; no two consecutive underscores anywhere. -/
def spec_is_valid_name (s : String) : Bool :=
  match s.toList with
  | [] => false
  | c :: rest =>
    spec_letter c && rest.all spec_name_char && !(has_double_underscore (c :: rest))

theorem is_alnum_eq_spec_name_char : is_alnum = spec_name_char := by
  funext c
  cases hA : is_alpha c <;> cases hU : (c == '_') <;>
    cases hD : ('0' ≤ c && c ≤ '9') <;>
      simp [is_alnum, spec_name_char, spec_letter, is_alpha] at hA ⊢ <;>
        simp [hA, hU, hD]

theorem validTail_eq_spec (l : List Char) : ∀ prev : Char,
    validTail prev l = (l.all is_alnum && !(has_double_underscore (prev :: l))) := by
  induction l with
  | nil => intro prev; simp [validTail, has_double_underscore]
  | cons c rest ih =>
    intro prev
    cases hA : is_alnum c
    · simp [validTail, hA]
    · cases hP : (c == '_' && prev == '_')
      · have hP' : (prev == '_' && c == '_') = false := by
          cases h1 : (c == '_') <;> cases h2 : (prev == '_') <;>
            simp [h1, h2] at hP ⊢
        simp [validTail, hA, hP, has_double_underscore, hP', ih c]
      · have hP' : (prev == '_' && c == '_') = true := by
          cases h1 : (c == '_') <;> cases h2 : (prev == '_') <;>
            simp [h1, h2] at hP ⊢
        simp [validTail, hA, hP, has_double_underscore, hP']

/-! ## Targets, emit options, outputs (Generator.cpp lines 41-96) -/

/-- Target operating systems (from Target.h; only the distinctions the file
uses matter: Windows versus everything else). -/
inductive TargetOS
  | OSUnknown | Linux | Windows | OSX | Android | NaCl
deriving DecidableEq, Repr

/-- Target architectures (from Target.h; `PNaCl` is the portable-bitcode
architecture tested at line 58). -/
inductive TargetArch
  | ArchUnknown | X86 | ARM | MIPS | PNaCl
deriving DecidableEq, Repr

/-- Target features; `MinGW` is the one feature `compute_outputs` tests. -/
inductive TargetFeature
  | MinGW | JIT | Debug | SSE41 | AVX
deriving DecidableEq, Repr

/-- A Halide Target: (os, arch, feature set). -/
structure Target where
  os : TargetOS
  arch : TargetArch
  features : List TargetFeature
deriving DecidableEq, Repr

/-- `Target::has_feature`. -/
def Target.has_feature (t : Target) (f : TargetFeature) : Bool :=
  t.features.contains f

/-- `GeneratorBase::EmitOptions`: one flag per artifact kind plus the
extension-override table (a map from default extension to replacement,
modelled as an association list with `std::map::find` as `List.lookup`). -/
structure EmitOptions where
  emit_o : Bool
  emit_assembly : Bool
  emit_bitcode : Bool
  emit_h : Bool
  emit_cpp : Bool
  emit_stmt : Bool
  emit_stmt_html : Bool
  emit_static_library : Bool
  extensions : List (String × String)
deriving DecidableEq, Repr

/-- `Outputs` (from Outputs.h as used here): one possibly-empty file path
per artifact kind; a kind not requested keeps the empty string. -/
structure Outputs where
  object_name : String := ""
  assembly_name : String := ""
  bitcode_name : String := ""
  c_header_name : String := ""
  c_source_name : String := ""
  stmt_name : String := ""
  stmt_html_name : String := ""
  static_library_name : String := ""
deriving DecidableEq, Repr

/-- Embeds `get_extension` (lines 41-47): look the default up in the
override table, fall back to the default. -/
def get_extension (deflt : String) (options : EmitOptions) : String :=
  match options.extensions.lookup deflt with
  | some v => v
  | none => deflt

/-- The `is_windows_coff` test of `compute_outputs` (lines 52-53). -/
def is_windows_coff (target : Target) : Bool :=
  target.os = TargetOS.Windows && !(target.has_feature TargetFeature.MinGW)

/-- Embeds `compute_outputs` (lines 49-96). -/
def compute_outputs (target : Target) (base_path : String)
    (options : EmitOptions) : Outputs :=
  let is_windows_coff := is_windows_coff target
  let o0 : Outputs := {}
  let o1 := if options.emit_o then
      if target.arch = TargetArch.PNaCl then
        { o0 with object_name := base_path ++ get_extension ".bc" options }
      else if is_windows_coff then
        { o0 with object_name := base_path ++ get_extension ".obj" options }
      else
        { o0 with object_name := base_path ++ get_extension ".o" options }
    else o0
  let o2 := if options.emit_assembly then
      { o1 with assembly_name := base_path ++ get_extension ".s" options }
    else o1
  let o3 := if options.emit_bitcode then
      { o2 with bitcode_name := base_path ++ get_extension ".bc" options }
    else o2
  let o4 := if options.emit_h then
      { o3 with c_header_name := base_path ++ get_extension ".h" options }
    else o3
  let o5 := if options.emit_cpp then
      { o4 with c_source_name := base_path ++ get_extension ".cpp" options }
    else o4
  let o6 := if options.emit_stmt then
      { o5 with stmt_name := base_path ++ get_extension ".stmt" options }
    else o5
  let o7 := if options.emit_stmt_html then
      { o6 with stmt_html_name := base_path ++ get_extension ".html" options }
    else o6
  let o8 := if options.emit_static_library then
      if is_windows_coff then
        { o7 with static_library_name := base_path ++ get_extension ".lib" options }
      else
        { o7 with static_library_name := base_path ++ get_extension ".a" options }
    else o7
  o8

/-- All eight artifact kinds requested. -/
def emit_all (o : EmitOptions) : Bool :=
  o.emit_o && o.emit_assembly && o.emit_bitcode && o.emit_h && o.emit_cpp &&
    o.emit_stmt && o.emit_stmt_html && o.emit_static_library

example : is_valid_name "abc_d1" = true := by decide
example : is_valid_name "a__b" = false := by decide
example : is_valid_name "_ab" = false := by decide
example : is_valid_name "" = false := by decide
example : spec_is_valid_name "abc_d1" = true := by decide

/-- C1: `is_valid_name(s)` is true if and only if s is non-empty, its first
character is an ASCII letter, every subsequent character is an ASCII
letter, digit, or underscore, and s contains no two consecutive
underscores (`spec_is_valid_name` states exactly those four rules from the
spec); in particular it is false on the empty string, on a string starting
with a non-letter, on one with a character outside [A-Za-z0-9_], and on
one containing "__". -/
theorem is_valid_name_iff_spec (s : String) :
    is_valid_name s = spec_is_valid_name s := by
  unfold is_valid_name spec_is_valid_name
  cases h : s.toList with
  | nil => rfl
  | cons c rest =>
    show (if !(is_alpha c) then false else validTail c rest) =
      (spec_letter c && rest.all spec_name_char && !(has_double_underscore (c :: rest)))
    cases hA : is_alpha c
    · have hS : spec_letter c = false := hA
      simp [hA, hS]
    · have hS : spec_letter c = true := hA
      rw [validTail_eq_spec, is_alnum_eq_spec_name_char]
      simp [hA, hS]

/-! ## Claims C2, C7, C10 about compute_outputs -/

/-- C2: with an empty extension-override table and every artifact kind
requested, the object extension is ".bc" for a PNaCl architecture
regardless of OS, ".obj" for Windows-without-MinGW, ".o" otherwise (so for
Linux); the static-library extension is ".lib" for Windows-without-MinGW
and ".a" otherwise (so for Linux); assembly, bitcode, header, C-source,
statement-dump and statement-html always get ".s", ".bc", ".h", ".cpp",
".stmt", ".html". -/
theorem compute_outputs_default_extensions (t : Target) (base : String)
    (opts : EmitOptions) (hext : opts.extensions = [])
    (hall : emit_all opts = true) :
    (compute_outputs t base opts).object_name =
      base ++ (if t.arch = TargetArch.PNaCl then ".bc"
               else if is_windows_coff t then ".obj" else ".o") ∧
    (compute_outputs t base opts).static_library_name =
      base ++ (if is_windows_coff t then ".lib" else ".a") ∧
    (compute_outputs t base opts).assembly_name = base ++ ".s" ∧
    (compute_outputs t base opts).bitcode_name = base ++ ".bc" ∧
    (compute_outputs t base opts).c_header_name = base ++ ".h" ∧
    (compute_outputs t base opts).c_source_name = base ++ ".cpp" ∧
    (compute_outputs t base opts).stmt_name = base ++ ".stmt" ∧
    (compute_outputs t base opts).stmt_html_name = base ++ ".html" := by
  simp only [emit_all, Bool.and_eq_true, and_assoc] at hall
  obtain ⟨ho, ha, hb, hh, hc, hs, hht, hsl⟩ := hall
  refine ⟨?_, ?_, ?_, ?_, ?_, ?_, ?_, ?_⟩ <;>
    by_cases hP : t.arch = TargetArch.PNaCl <;>
      cases hW : is_windows_coff t <;>
        simp [compute_outputs, get_extension, hext, ho, ha, hb, hh, hc, hs,
          hht, hsl, hP, hW]

/-- A Windows target without the MinGW feature, used as concrete input. -/
def winT : Target := ⟨TargetOS.Windows, TargetArch.X86, []⟩

/-- A Linux target, used as concrete input. -/
def linuxT : Target := ⟨TargetOS.Linux, TargetArch.X86, []⟩

/-- Emit options requesting all kinds, with an empty override table. -/
def allOpts : EmitOptions := ⟨true, true, true, true, true, true, true, true, []⟩

theorem compute_outputs_default_extensions_witness :
    allOpts.extensions = [] ∧ emit_all allOpts = true ∧
    ((compute_outputs winT "p" allOpts).object_name =
      "p" ++ (if winT.arch = TargetArch.PNaCl then ".bc"
              else if is_windows_coff winT then ".obj" else ".o") ∧
    (compute_outputs winT "p" allOpts).static_library_name =
      "p" ++ (if is_windows_coff winT then ".lib" else ".a") ∧
    (compute_outputs winT "p" allOpts).assembly_name = "p" ++ ".s" ∧
    (compute_outputs winT "p" allOpts).bitcode_name = "p" ++ ".bc" ∧
    (compute_outputs winT "p" allOpts).c_header_name = "p" ++ ".h" ∧
    (compute_outputs winT "p" allOpts).c_source_name = "p" ++ ".cpp" ∧
    (compute_outputs winT "p" allOpts).stmt_name = "p" ++ ".stmt" ∧
    (compute_outputs winT "p" allOpts).stmt_html_name = "p" ++ ".html") :=
  ⟨rfl, by decide, compute_outputs_default_extensions winT "p" allOpts rfl (by decide)⟩

/-- Emit options for C7: all kinds requested, override table {".o" -> ".obj2"}. -/
def c7Opts : EmitOptions := ⟨true, true, true, true, true, true, true, true, [(".o", ".obj2")]⟩

/-- C7: on a Linux (non-PNaCl) target with override table
{".o" -> ".obj2"} and all kinds requested, only the object artifact's
extension changes to ".obj2"; every other kind, in particular the header
and the static library, keeps its default extension. -/
theorem compute_outputs_override_only_object (t : Target) (base : String)
    (hos : t.os = TargetOS.Linux) (harch : t.arch ≠ TargetArch.PNaCl) :
    compute_outputs t base c7Opts =
      { object_name := base ++ ".obj2", assembly_name := base ++ ".s",
        bitcode_name := base ++ ".bc", c_header_name := base ++ ".h",
        c_source_name := base ++ ".cpp", stmt_name := base ++ ".stmt",
        stmt_html_name := base ++ ".html", static_library_name := base ++ ".a" } := by
  have e1 : get_extension ".o" c7Opts = ".obj2" := rfl
  have e2 : get_extension ".s" c7Opts = ".s" := rfl
  have e3 : get_extension ".bc" c7Opts = ".bc" := rfl
  have e4 : get_extension ".h" c7Opts = ".h" := rfl
  have e5 : get_extension ".cpp" c7Opts = ".cpp" := rfl
  have e6 : get_extension ".stmt" c7Opts = ".stmt" := rfl
  have e7 : get_extension ".html" c7Opts = ".html" := rfl
  have e8 : get_extension ".a" c7Opts = ".a" := rfl
  have hW : is_windows_coff t = false := by
    simp [is_windows_coff, hos]
  have p1 : c7Opts.emit_o = true := rfl
  have p2 : c7Opts.emit_assembly = true := rfl
  have p3 : c7Opts.emit_bitcode = true := rfl
  have p4 : c7Opts.emit_h = true := rfl
  have p5 : c7Opts.emit_cpp = true := rfl
  have p6 : c7Opts.emit_stmt = true := rfl
  have p7 : c7Opts.emit_stmt_html = true := rfl
  have p8 : c7Opts.emit_static_library = true := rfl
  simp [compute_outputs, harch, hW, e1, e2, e3, e4, e5, e6, e7, e8,
    p1, p2, p3, p4, p5, p6, p7, p8]

theorem compute_outputs_override_only_object_witness :
    linuxT.os = TargetOS.Linux ∧ linuxT.arch ≠ TargetArch.PNaCl ∧
    compute_outputs linuxT "p" c7Opts =
      { object_name := "p" ++ ".obj2", assembly_name := "p" ++ ".s",
        bitcode_name := "p" ++ ".bc", c_header_name := "p" ++ ".h",
        c_source_name := "p" ++ ".cpp", stmt_name := "p" ++ ".stmt",
        stmt_html_name := "p" ++ ".html", static_library_name := "p" ++ ".a" } :=
  ⟨rfl, by decide, compute_outputs_override_only_object linuxT "p" rfl (by decide)⟩

/-- C10: when the override table maps ".bc" to some replacement r and the
architecture is PNaCl, requesting both the object kind and the bitcode
kind applies that single override to both artifacts: both file names end
in r, because the two kinds share the ".bc" default-extension key. -/
theorem compute_outputs_bc_override_shared (t : Target) (base r : String)
    (opts : EmitOptions) (harch : t.arch = TargetArch.PNaCl)
    (hbc : opts.extensions.lookup ".bc" = some r)
    (ho : opts.emit_o = true) (hb : opts.emit_bitcode = true) :
    (compute_outputs t base opts).object_name = base ++ r ∧
    (compute_outputs t base opts).bitcode_name = base ++ r := by
  obtain ⟨eo, ea, eb, eh, ec, es, eht, esl, exts⟩ := opts
  simp only at ho hb hbc
  subst ho; subst hb
  cases ea <;> cases eh <;> cases ec <;> cases es <;> cases eht <;> cases esl <;>
    cases hw : is_windows_coff t <;>
      simp [compute_outputs, get_extension, harch, hbc, hw]

/-- A PNaCl-architecture target, used as concrete input. -/
def pnaclT : Target := ⟨TargetOS.Linux, TargetArch.PNaCl, []⟩

/-- Emit options for the C10 witness: object and bitcode requested,
override table {".bc" -> ".pbc"}. -/
def bcOpts : EmitOptions := ⟨true, false, true, false, false, false, false, false, [(".bc", ".pbc")]⟩

/-! ## Claim C3: set_generator_param_values (Generator.cpp lines 445-455)

The configuration-parameter map `generator_params` is modelled as an
association list from parameter name to its current string-encoded value;
`from_string` on a parameter is modelled as replacing that value. The
supplied `GeneratorParamValues` mapping is a `std::map`, so the loop of
`set_generator_param_values` visits its entries in ascending key order;
the model processes the supplied list in list order, which coincides with
the map's iteration order when the list is sorted by key. -/

/-- One `param->second->from_string(value)` call: replace the value stored
under key k (the set of keys is unchanged). -/
def gpUpdate (gp : List (String × String)) (k v : String) :
    List (String × String) :=
  gp.map (fun kv => (kv.1, if kv.1 = k then v else kv.2))

/-- The loop of `set_generator_param_values` (lines 447-454): for each
supplied (key, value) in iteration order, look the key up among the
configuration parameters; if absent, stop with the user error (updates
already made are kept — in the C++ they were object mutations made before
the `user_assert` fired); otherwise apply `from_string` and continue. -/
def setParamsLoop : List (String × String) → List (String × String) →
    Option String × List (String × String)
  | gp, [] => (none, gp)
  | gp, (k, v) :: rest =>
    if (gp.lookup k).isSome then setParamsLoop (gpUpdate gp k v) rest
    else (some ("Generator has no GeneratorParam named: " ++ k), gp)

/-- Embeds `set_generator_param_values` on the discovered
configuration-parameter values (`build_params` has already run): first
component is the user error if one fired, second is the resulting
parameter-value map. -/
def set_generator_param_values (gp params : List (String × String)) :
    Option String × List (String × String) :=
  setParamsLoop gp params

theorem gpUpdate_lookup_isSome (gp : List (String × String)) (k v k' : String) :
    ((gpUpdate gp k v).lookup k').isSome = (gp.lookup k').isSome := by
  induction gp with
  | nil => rfl
  | cons kv rest ih =>
    obtain ⟨a, b⟩ := kv
    by_cases h2 : k' == a
    · simp [gpUpdate, List.lookup, h2]
    · simp only [Bool.not_eq_true] at h2
      simp [gpUpdate, List.lookup, h2] at ih ⊢
      exact ih

theorem gpUpdate_lookup_isNone (gp : List (String × String)) (k v k' : String) :
    ((gpUpdate gp k v).lookup k').isNone = (gp.lookup k').isNone := by
  have h := gpUpdate_lookup_isSome gp k v k'
  cases ho : (gpUpdate gp k v).lookup k' <;> cases ho2 : gp.lookup k' <;>
    simp [ho, ho2] at h ⊢

/-- C3 counterexample: with one configuration parameter "a" (value "1")
and supplied mapping {"a" -> "2", "b" -> "x"} (iteration order "a" then
"b", "b" unknown), the call fails with a user error but the value of "a"
has already been changed to "2" — the existing configuration values are
NOT all left unchanged. -/
theorem set_generator_param_values_applies_earlier_keys :
    (set_generator_param_values [("a", "1")] [("a", "2"), ("b", "x")]).1.isSome = true ∧
    (set_generator_param_values [("a", "1")] [("a", "2"), ("b", "x")]).2 = [("a", "2")] ∧
    [("a", "2")] ≠ [("a", "1")] := by decide

/-- C3 amended: if the supplied mapping contains a key naming no
configuration parameter, the call fails with a user error; the entries
strictly before the first unknown key in iteration order ARE applied (in
order), the unknown key and everything after it are not, and parameters
not named by an applied entry keep their values. -/
theorem set_generator_param_values_unknown_key (gp params : List (String × String))
    (h : params.any (fun kv => (gp.lookup kv.1).isNone) = true) :
    (set_generator_param_values gp params).1.isSome = true ∧
    (set_generator_param_values gp params).2 =
      (params.takeWhile (fun kv => (gp.lookup kv.1).isSome)).foldl
        (fun g kv => gpUpdate g kv.1 kv.2) gp := by
  induction params generalizing gp with
  | nil => simp at h
  | cons kv rest ih =>
    obtain ⟨k, v⟩ := kv
    cases h1 : (gp.lookup k).isSome
    · simp [set_generator_param_values, setParamsLoop, h1, List.takeWhile]
    · have hfun : (fun kv : String × String =>
          ((gpUpdate gp k v).lookup kv.1).isSome) =
          (fun kv : String × String => (gp.lookup kv.1).isSome) :=
        funext fun kv => gpUpdate_lookup_isSome gp k v kv.1
      have hany : rest.any
          (fun kv => ((gpUpdate gp k v).lookup kv.1).isNone) = true := by
        simp only [List.any_cons, Bool.or_eq_true] at h
        rcases h with h | h
        · rw [Option.isNone_iff_eq_none] at h
          rw [h] at h1
          simp at h1
        · simp only [List.any_eq_true] at h ⊢
          obtain ⟨x, hx, hxn⟩ := h
          refine ⟨x, hx, ?_⟩
          rw [gpUpdate_lookup_isNone]
          exact hxn
      have hrec := ih (gpUpdate gp k v) hany
      rw [hfun] at hrec
      simpa [set_generator_param_values, setParamsLoop, h1,
        List.takeWhile_cons] using hrec

theorem set_generator_param_values_unknown_key_witness :
    ([("a", "2"), ("b", "x")] : List (String × String)).any
      (fun kv => (([("a", "1")] : List (String × String)).lookup kv.1).isNone) = true ∧
    ((set_generator_param_values [("a", "1")] [("a", "2"), ("b", "x")]).1.isSome = true ∧
     (set_generator_param_values [("a", "1")] [("a", "2"), ("b", "x")]).2 =
       (([("a", "2"), ("b", "x")] : List (String × String)).takeWhile
         (fun kv => (([("a", "1")] : List (String × String)).lookup kv.1).isSome)).foldl
         (fun g kv => gpUpdate g kv.1 kv.2) [("a", "1")]) :=
  ⟨by decide,
   set_generator_param_values_unknown_key [("a", "1")] [("a", "2"), ("b", "x")]
     (by decide)⟩

theorem compute_outputs_bc_override_shared_witness :
    pnaclT.arch = TargetArch.PNaCl ∧
    bcOpts.extensions.lookup ".bc" = some ".pbc" ∧
    bcOpts.emit_o = true ∧ bcOpts.emit_bitcode = true ∧
    ((compute_outputs pnaclT "p" bcOpts).object_name = "p" ++ ".pbc" ∧
     (compute_outputs pnaclT "p" bcOpts).bitcode_name = "p" ++ ".pbc") :=
  ⟨rfl, by decide, rfl, rfl,
    compute_outputs_bc_override_shared pnaclT "p" ".pbc" bcOpts rfl (by decide) rfl rfl⟩

/-! ## Parameter discovery (Generator.cpp lines 369-433, 476-485)

A generator instance declares, as member fields found by
`ObjectInstanceRegistry::instances_in_range`, a list of free parameters
(`Parameter`, with a name and an is-explicit-name flag), a list of inputs
(`GeneratorInputBase`, with a name), and a list of configuration
parameters (`GeneratorParamBase`, with a name). `GenDecl` records those
declarations in registration order; `build_params` discovers and
validates them into the instance's `filter_params`, `filter_inputs` and
`generator_params` members, guarded by the `params_built` flag. -/

/-- A declared free parameter: its name and whether the name was given
explicitly (`Parameter::is_explicit_name`). -/
structure FP where
  name : String
  explicit_name : Bool
deriving DecidableEq, Repr

/-- The member fields of one generator instance, in registration order. -/
structure GenDecl where
  filter_params : List FP
  filter_inputs : List String
  generator_params : List String
deriving DecidableEq, Repr

/-- The user errors `build_params` can raise, in source order. -/
inductive BuildErr
  | paramNotExplicit (n : String)
  | invalidParamName (n : String)
  | duplicateParamName (n : String)
  | invalidInputName (n : String)
  | duplicateInputName (n : String)
  | inputWithParam
  | invalidGeneratorParamName (n : String)
  | duplicateGeneratorParamName (n : String)
deriving DecidableEq, Repr

/-- The free-parameter loop of `build_params` (lines 381-390): for each
discovered `Parameter`, require an explicit name, a valid name, and no
duplicate among those already collected, then push it. -/
def checkFilterParams : List FP → List FP → Except BuildErr (List FP)
  | acc, [] => .ok acc
  | acc, p :: rest =>
    if !p.explicit_name then .error (.paramNotExplicit p.name)
    else if !(is_valid_name p.name) then .error (.invalidParamName p.name)
    else if acc.any (fun q => q.name == p.name) then
      .error (.duplicateParamName p.name)
    else checkFilterParams (acc ++ [p]) rest

/-- The input loop of `build_params` (lines 392-402): for each discovered
input, require a valid name and no duplicate, then push it. -/
def checkInputs : List String → List String → Except BuildErr (List String)
  | acc, [] => .ok acc
  | acc, n :: rest =>
    if !(is_valid_name n) then .error (.invalidInputName n)
    else if acc.any (fun q => q == n) then .error (.duplicateInputName n)
    else checkInputs (acc ++ [n]) rest

/-- The configuration-parameter loop of `build_params` (lines 408-417):
for each discovered `GeneratorParamBase`, require a valid name and that
the name is not yet in the map, then index it. -/
def checkGeneratorParams : List String → List String → Except BuildErr (List String)
  | acc, [] => .ok acc
  | acc, n :: rest =>
    if !(is_valid_name n) then .error (.invalidGeneratorParamName n)
    else if acc.contains n then .error (.duplicateGeneratorParamName n)
    else checkGeneratorParams (acc ++ [n]) rest

/-- The three discovered, validated collections. -/
structure BuiltParams where
  filter_params : List FP
  filter_inputs : List String
  generator_params : List String
deriving DecidableEq, Repr

/-- The body of `build_params` when `params_built` is false (lines
379-418): free-parameter loop, input loop, the mutual-exclusion check of
lines 404-406 (an error when both collections are non-empty), then the
configuration-parameter loop. -/
def build_params_once (d : GenDecl) : Except BuildErr BuiltParams :=
  match checkFilterParams [] d.filter_params with
  | .error e => .error e
  | .ok fps =>
    match checkInputs [] d.filter_inputs with
    | .error e => .error e
    | .ok ins =>
      if fps.length > 0 && ins.length > 0 then .error .inputWithParam
      else
        match checkGeneratorParams [] d.generator_params with
        | .error e => .error e
        | .ok gps => .ok ⟨fps, ins, gps⟩

/-- The mutable discovery state of a `GeneratorBase` instance: its
declarations, the `params_built` flag, the three discovered collections,
the instance's resolved target, and `user`, standing for all state the
generator author's own code (notably `build_pipeline`) can read and
write — parameter values, member variables. `build_pipeline` cannot touch
the discovery bookkeeping, which is private to `GeneratorBase`. -/
structure GenState (σ : Type) where
  decl : GenDecl
  params_built : Bool
  filter_params : List FP
  filter_inputs : List String
  generator_params : List String
  target : Target
  user : σ

/-- Observable discovery events, used to state ordering claims: one
`discover` per scan of the instance, one `buildPipeline` per call of the
pipeline-building collaborator, one `compileCall` per
`compile_to_module`. -/
inductive Ev
  | discover
  | buildPipeline
  | compileCall
deriving DecidableEq, Repr

/-- Embeds `GeneratorBase::build_params` (lines 377-420): a no-op when
`params_built` is already set; otherwise scan and validate the instance's
declarations and set the flag. Returns the new state and the discovery
events that occurred. -/
def build_params {σ : Type} (s : GenState σ) :
    Except BuildErr (GenState σ × List Ev) :=
  if s.params_built then .ok (s, [])
  else
    match build_params_once s.decl with
    | .error e => .error e
    | .ok b =>
      .ok ({ s with
              params_built := true
              filter_params := b.filter_params
              filter_inputs := b.filter_inputs
              generator_params := b.generator_params }, [.discover])

/-- Embeds `GeneratorBase::rebuild_params` (lines 369-375): reset
`params_built`, clear the three collections, and run `build_params`. -/
def rebuild_params {σ : Type} (s : GenState σ) :
    Except BuildErr (GenState σ × List Ev) :=
  build_params { s with
                  params_built := false
                  filter_params := []
                  filter_inputs := []
                  generator_params := [] }

/-- Embeds `GeneratorBase::get_filter_arguments` (lines 422-433): run
`build_params`, then project every free parameter and then every input to
an Argument (modelled by its name, the only field the ordering claims
need). -/
def get_filter_arguments {σ : Type} (s : GenState σ) :
    Except BuildErr (List String × GenState σ × List Ev) :=
  match build_params s with
  | .error e => .error e
  | .ok (s1, ev) =>
    .ok (s1.filter_params.map FP.name ++ s1.filter_inputs, s1, ev)

/-- An opaque pipeline produced by the external pipeline builder. -/
structure Pipeline where
  id : Nat
deriving DecidableEq, Repr

/-- `LoweredFunc::LinkageType`. -/
inductive Linkage
  | External
  | Internal
deriving DecidableEq, Repr

/-- What `pipeline.compile_to_module(...)` (line 484) receives: the
pipeline, the freshly computed Argument list, the function name, the
instance's target, and the linkage. -/
structure ModuleRec where
  pipeline : Pipeline
  args : List String
  function_name : String
  target : Target
  linkage : Linkage
deriving DecidableEq, Repr

/-- Embeds `GeneratorBase::build_module` (lines 476-485): run
`build_params`, call the pipeline-building collaborator `pb` (which acts
on the generator author's state `user` and yields a `Pipeline`), re-run
discovery via `rebuild_params` when the instance has at least one free
parameter, then compile against `get_filter_arguments()`, the function
name, the instance's target, and the linkage. -/
def build_module {σ : Type} (pb : σ → σ × Pipeline) (function_name : String)
    (linkage : Linkage) (s : GenState σ) :
    Except BuildErr (ModuleRec × GenState σ × List Ev) :=
  match build_params s with
  | .error e => .error e
  | .ok (s1, ev1) =>
    let u2 := (pb s1.user).1
    let p := (pb s1.user).2
    let s2 : GenState σ := { s1 with user := u2 }
    match (if s2.filter_params.length > 0 then rebuild_params s2
           else .ok (s2, [])) with
    | .error e => .error e
    | .ok (s3, ev3) =>
      match get_filter_arguments s3 with
      | .error e => .error e
      | .ok (args, s4, ev4) =>
        .ok (⟨p, args, function_name, s4.target, linkage⟩, s4,
             ev1 ++ [.buildPipeline] ++ ev3 ++ ev4 ++ [.compileCall])

/-! ## Claims C4, C5, C8 about parameter discovery -/

/-- C4: on an instance whose free parameters and inputs both validate
(explicit, valid, duplicate-free names) and are both non-empty,
`build_params` fails with the mutual-exclusion user error, whatever the
configuration parameters are (they are never reached, so none is
indexed), and `get_filter_arguments` on a fresh such instance propagates
that error, so no Argument list is produced. -/
theorem build_params_free_param_and_input_error {σ : Type} (d : GenDecl)
    (t : Target) (u : σ) (fps : List FP) (ins : List String)
    (hf : checkFilterParams [] d.filter_params = .ok fps)
    (hi : checkInputs [] d.filter_inputs = .ok ins)
    (h1 : fps ≠ []) (h2 : ins ≠ []) :
    build_params_once d = .error .inputWithParam ∧
    get_filter_arguments (⟨d, false, [], [], [], t, u⟩ : GenState σ) =
      .error .inputWithParam := by
  have hbp : build_params_once d = .error .inputWithParam := by
    simp [build_params_once, hf, hi, List.length_pos, h1, h2]
  exact ⟨hbp, by simp [get_filter_arguments, build_params, hbp]⟩

theorem build_params_free_param_and_input_error_witness :
    checkFilterParams [] [⟨"a", true⟩] = .ok [⟨"a", true⟩] ∧
    checkInputs [] ["b"] = .ok ["b"] ∧
    ([(⟨"a", true⟩ : FP)] ≠ []) ∧ ((["b"] : List String) ≠ []) ∧
    (build_params_once ⟨[⟨"a", true⟩], ["b"], ["bad name"]⟩ =
       .error .inputWithParam ∧
     get_filter_arguments
       (⟨⟨[⟨"a", true⟩], ["b"], ["bad name"]⟩, false, [], [], [], linuxT, ()⟩ :
         GenState Unit) = .error .inputWithParam) :=
  ⟨rfl, rfl, by decide, by decide,
   build_params_free_param_and_input_error ⟨[⟨"a", true⟩], ["b"], ["bad name"]⟩
     linuxT () [⟨"a", true⟩] ["b"] rfl rfl (by decide) (by decide)⟩

/-- C5: on a fresh instance whose declarations validate, `build_module`
first discovers parameters, then builds the pipeline, re-runs discovery
exactly when the instance has at least one free parameter (never when it
only has inputs), and finally compiles against the freshly computed
Argument list (free parameters then inputs, by name), the supplied
function name, the instance's resolved target, and the requested
linkage. -/
theorem build_module_rediscovers_iff_free_params {σ : Type}
    (pb : σ → σ × Pipeline) (fname : String) (lk : Linkage)
    (d : GenDecl) (t : Target) (u : σ) (b : BuiltParams)
    (hb : build_params_once d = .ok b) :
    build_module pb fname lk (⟨d, false, [], [], [], t, u⟩ : GenState σ) =
      .ok (⟨(pb u).2, b.filter_params.map FP.name ++ b.filter_inputs, fname, t, lk⟩,
           ⟨d, true, b.filter_params, b.filter_inputs, b.generator_params, t,
            (pb u).1⟩,
           if b.filter_params.length > 0 then
             [.discover, .buildPipeline, .discover, .compileCall]
           else [.discover, .buildPipeline, .compileCall]) := by
  by_cases hfp : b.filter_params.length > 0
  · simp [build_module, build_params, rebuild_params, get_filter_arguments,
      hb, hfp]
  · simp [build_module, build_params, rebuild_params, get_filter_arguments,
      hb, hfp]

/-- The pipeline-building collaborator used as concrete input: leaves the
generator author's state alone and returns pipeline 7. -/
def pbEx : Unit → Unit × Pipeline := fun x => (x, ⟨7⟩)

theorem build_module_rediscovers_iff_free_params_witness :
    build_params_once ⟨[⟨"a", true⟩], [], ["gp"]⟩ =
      .ok ⟨[⟨"a", true⟩], [], ["gp"]⟩ ∧
    build_module pbEx "f" .External
      (⟨⟨[⟨"a", true⟩], [], ["gp"]⟩, false, [], [], [], linuxT, ()⟩ :
        GenState Unit) =
      .ok (⟨(pbEx ()).2,
            ([(⟨"a", true⟩ : FP)]).map FP.name ++ ([] : List String), "f",
            linuxT, .External⟩,
           ⟨⟨[⟨"a", true⟩], [], ["gp"]⟩, true, [⟨"a", true⟩], [], ["gp"],
            linuxT, (pbEx ()).1⟩,
           if ([(⟨"a", true⟩ : FP)]).length > 0 then
             [.discover, .buildPipeline, .discover, .compileCall]
           else [.discover, .buildPipeline, .compileCall]) :=
  ⟨rfl,
   build_module_rediscovers_iff_free_params pbEx "f" .External
     ⟨[⟨"a", true⟩], [], ["gp"]⟩ linuxT () ⟨[⟨"a", true⟩], [], ["gp"]⟩ rfl⟩

/-- C8: after a successful `build_params`, a further `build_params` call
is a no-op — it returns the same state unchanged (same discovered free
parameters, inputs and configuration parameters) and performs no
discovery — while `rebuild_params` clears the three collections and
forces re-discovery: it scans again (a `discover` event occurs) and
recomputes the collections from the declarations. -/
theorem build_params_idempotent_until_rebuild {σ : Type}
    (s s' : GenState σ) (ev : List Ev) (b : BuiltParams)
    (h : build_params s = .ok (s', ev))
    (hb : build_params_once s'.decl = .ok b) :
    build_params s' = .ok (s', []) ∧
    rebuild_params s' =
      .ok ({ s' with
              params_built := true
              filter_params := b.filter_params
              filter_inputs := b.filter_inputs
              generator_params := b.generator_params }, [.discover]) := by
  have hbuilt : s'.params_built = true := by
    cases hsb : s.params_built
    · cases hce : build_params_once s.decl with
      | error e => simp [build_params, hsb, hce] at h
      | ok b' =>
        simp [build_params, hsb, hce] at h
        obtain ⟨h1, -⟩ := h
        rw [← h1]
    · simp [build_params, hsb] at h
      obtain ⟨h1, -⟩ := h
      rw [← h1]
      exact hsb
  refine ⟨by simp [build_params, hbuilt], ?_⟩
  simp [rebuild_params, build_params, hb]

theorem build_params_idempotent_until_rebuild_witness :
    build_params
      (⟨⟨[], ["b"], ["gp"]⟩, false, [], [], [], linuxT, ()⟩ : GenState Unit) =
      .ok (⟨⟨[], ["b"], ["gp"]⟩, true, [], ["b"], ["gp"], linuxT, ()⟩,
           [.discover]) ∧
    build_params_once
      (⟨⟨[], ["b"], ["gp"]⟩, true, [], ["b"], ["gp"], linuxT, ()⟩ :
        GenState Unit).decl = .ok ⟨[], ["b"], ["gp"]⟩ ∧
    (build_params
       (⟨⟨[], ["b"], ["gp"]⟩, true, [], ["b"], ["gp"], linuxT, ()⟩ :
         GenState Unit) =
       .ok (⟨⟨[], ["b"], ["gp"]⟩, true, [], ["b"], ["gp"], linuxT, ()⟩, []) ∧
     rebuild_params
       (⟨⟨[], ["b"], ["gp"]⟩, true, [], ["b"], ["gp"], linuxT, ()⟩ :
         GenState Unit) =
       .ok (⟨⟨[], ["b"], ["gp"]⟩, true, [], ["b"], ["gp"], linuxT, ()⟩,
            [.discover])) :=
  ⟨rfl, rfl,
   build_params_idempotent_until_rebuild
     (⟨⟨[], ["b"], ["gp"]⟩, false, [], [], [], linuxT, ()⟩ : GenState Unit)
     (⟨⟨[], ["b"], ["gp"]⟩, true, [], ["b"], ["gp"], linuxT, ()⟩ : GenState Unit)
     [.discover] ⟨[], ["b"], ["gp"]⟩ rfl rfl⟩

/-! ## Claims C6, C9 about generate_filter_main (lines 178-197, 282-303) -/

/-- Embeds the generator-resolution logic of `generate_filter_main`
(lines 178-197): with the registered generator names, the `-g` flag value
and the `-r` flag value (absent flags are the empty string), either a
usage-error exit status (1) or the selected generator name. If no
generator is registered and no runtime requested, usage error; if neither
`-g` nor `-r` is given, the single registered generator is selected, and
more than one registered is a usage error. -/
def resolve_generator_name (generator_names : List String)
    (gFlag rFlag : String) : Except Nat String :=
  if generator_names.length = 0 && rFlag = "" then .error 1
  else
    let generator_name := gFlag
    if generator_name = "" && rFlag = "" then
      if generator_names.length > 1 then .error 1
      else .ok (generator_names.getD 0 "")
    else .ok generator_name

/-- C6: when neither -g nor -r is given, more than one registered
generator is a usage error exiting with status 1; exactly one registered
generator is selected; no registered generator is a usage error exiting
with status 1. -/
theorem resolve_generator_name_no_flags (names : List String) :
    resolve_generator_name names "" "" =
      (match names with
       | [] => .error 1
       | [n] => .ok n
       | _ :: _ :: _ => .error 1) := by
  match names with
  | [] => rfl
  | [n] => rfl
  | a :: b :: rest => simp [resolve_generator_name]

/-- What the generator branch of `generate_filter_main` hands to the
compile step: either `compile_multitarget(function_name, output_files,
targets, producer)` or a single-target `Module::compile(output_files)`
for the module produced for `targets[0]`. -/
inductive GenCompile
  | multitarget (function_name : String) (output_files : Outputs)
      (targets : List Target)
  | single (function_name : String) (target : Target) (output_files : Outputs)
deriving DecidableEq, Repr

/-- The fallback Target for an out-of-range index; `generate_filter_main`
never hits it because `target=` is mandatory and `split_string` yields at
least one element. -/
def unknownT : Target := ⟨TargetOS.OSUnknown, TargetArch.ArchUnknown, []⟩

/-- Embeds the generator branch of `generate_filter_main` (lines
282-303): when a generator name was resolved, compute the Outputs from
`targets[0]` (line 284) and dispatch to `compile_multitarget` when more
than one target was given, else compile the single-target module
directly. -/
def generator_compile_call (generator_name function_name base_path : String)
    (targets : List Target) (opts : EmitOptions) : Option GenCompile :=
  if generator_name = "" then none
  else
    let output_files := compute_outputs (targets.getD 0 unknownT) base_path opts
    if targets.length > 1 then
      some (.multitarget function_name output_files targets)
    else
      some (.single function_name (targets.getD 0 unknownT) output_files)

/-- Extracts the Outputs handed to the compile step. -/
def compile_call_outputs : Option GenCompile → Option Outputs
  | none => none
  | some (.multitarget _ o _) => some o
  | some (.single _ _ o) => some o

/-- C9: in a multi-target invocation (two or more targets) with a
generator name, the Outputs handed to the multi-target compilation
service are computed from the first target alone; replacing the later
targets by any others leaves the Outputs unchanged. -/
theorem multitarget_outputs_from_first_target (g f base : String)
    (opts : EmitOptions) (t0 : Target) (rest rest' : List Target)
    (hg : g ≠ "") (h : rest ≠ []) (h' : rest' ≠ []) :
    generator_compile_call g f base (t0 :: rest) opts =
      some (.multitarget f (compute_outputs t0 base opts) (t0 :: rest)) ∧
    compile_call_outputs (generator_compile_call g f base (t0 :: rest) opts) =
      compile_call_outputs (generator_compile_call g f base (t0 :: rest') opts) := by
  have hl : (t0 :: rest).length > 1 := by
    simpa using List.length_pos.mpr h
  have hl' : (t0 :: rest').length > 1 := by
    simpa using List.length_pos.mpr h'
  refine ⟨?_, ?_⟩
  · simp [generator_compile_call, hg, hl, List.length_pos, h]
  · simp [generator_compile_call, compile_call_outputs, hg, hl, hl',
      List.length_pos, h, h']

theorem multitarget_outputs_from_first_target_witness :
    ("gen" : String) ≠ "" ∧ ([winT] : List Target) ≠ [] ∧
    ([pnaclT] : List Target) ≠ [] ∧
    (generator_compile_call "gen" "f" "p" [linuxT, winT] allOpts =
       some (.multitarget "f" (compute_outputs linuxT "p" allOpts)
         [linuxT, winT]) ∧
     compile_call_outputs
         (generator_compile_call "gen" "f" "p" [linuxT, winT] allOpts) =
       compile_call_outputs
         (generator_compile_call "gen" "f" "p" [linuxT, pnaclT] allOpts)) :=
  ⟨by decide, by decide, by decide,
   multitarget_outputs_from_first_target "gen" "f" "p" allOpts linuxT
     [winT] [pnaclT] (by decide) (by decide) (by decide)⟩
